import Mathlib

/-!
Verification of the W55RP20-S2E MicroPython driver stack
(`src/lib/w55rp20_s2e_spi.py` and `src/lib/w55rp20_s2e_uart.py`).

The SPI bus is modelled as an explicit state (`Bus`): an oracle `rx` giving
the MISO byte returned by the k-th single-byte exchange, a counter `cnt` of
exchanges performed so far, and the trace `tx` of MOSI bytes written.
Busy-wait deadlines (`time.ticks_ms` arithmetic) are modelled by a boolean
oracle `tmo : Nat → Bool` read at each loop iteration: `tmo i = true` means
the deadline test `timed_out(dl)` fires at the i-th iteration of that wait
loop.  Python exceptions are modelled with `Except PyErr`.
-/

namespace S2E

/-- Protocol constants from the source (`DUMMY`, `ACK`, ...). -/
def DUMMY : Nat := 0xFF

def ACK : Nat := 0x0A

def NACK : Nat := 0x0B

def CMD_B0 : Nat := 0xB0

def RSP_B1 : Nat := 0xB1

def DATA_TX_A0 : Nat := 0xA0

def SUCCESS : Int := 0

def ERR_NACK : Int := -1

def ERR_TIMEOUT : Int := -2

def ERR_INVALID_HEADER : Int := -3

def CAP_MAX : Nat := 2048

def DATA_SCAN_MAX : Nat := 16384

/-- A Python exception raised by the driver: `ValueError`, `RuntimeError`,
or the driver's own `S2EError(msg, err_code, stage)`. -/
inductive PyErr where
  | valueError (msg : String)
  | runtimeError (msg : String)
  | s2eError (msg : String) (errCode : Int) (stage : Option String)
  deriving DecidableEq, Repr

deriving instance DecidableEq for Except

/-- The SPI bus state: `rx k` is the MISO byte produced by the k-th
single-byte exchange, `cnt` counts exchanges performed, `tx` is the MOSI
trace. -/
structure Bus where
  rx : Nat → Nat
  cnt : Nat
  tx : List Nat

/-- `xfer_byte(tx)`: one byte-by-byte transfer.  The source masks the MOSI
byte with `& 0xFF` and returns the received byte. -/
def xfer (t : Nat) (s : Bus) : Nat × Bus :=
  (s.rx s.cnt, { s with cnt := s.cnt + 1, tx := s.tx ++ [t % 256] })

/-- `n` consecutive `xfer_byte(DUMMY)` exchanges, collecting the received
bytes (models the payload-capture `for` loop of `read_b1_payload_status`). -/
def xferN : Nat → Bus → List Nat × Bus
  | 0, s => ([], s)
  | n + 1, s =>
    let (b, s1) := xfer DUMMY s
    let (rest, s2) := xferN n s1
    (b :: rest, s2)

/-- Loop body of `wait_ack`: `cnt` is the iteration counter (the source's
`cnt`), `fuel` is the remaining iteration budget `max_bytes - cnt`.  The
result mirrors Python's tri-state `True` (ACK) / `False` (NACK) / `None`
(timed out or byte budget exhausted). -/
def waitAckGo (tmo : Nat → Bool) : Nat → Nat → Bus → Option Bool × Bus
  | _, 0, s => (none, s)
  | cnt, fuel + 1, s =>
    if tmo cnt then (none, s)
    else
      let (b, s1) := xfer DUMMY s
      if b = ACK then
        let s2 := (xfer DUMMY s1).2
        let s3 := (xfer DUMMY s2).2
        let s4 := (xfer DUMMY s3).2
        (some true, s4)
      else if b = NACK then (some false, s1)
      else waitAckGo tmo (cnt + 1) fuel s1

/-- `wait_ack(timeout_ms, max_bytes)` from the source. -/
def waitAck (tmo : Nat → Bool) (maxBytes : Nat) (s : Bus) : Option Bool × Bus :=
  waitAckGo tmo 0 maxBytes s

/-- Result tuple of `read_b1_payload_status`:
`(memoryview, length, err_code, stage)`. -/
abbrev B1Out := Option (List Nat) × Nat × Int × Option String

/-- Loop body of `read_b1_payload_status`: scan for the `0xB1` response
header (a `NACK` aborts), then read the little-endian length, a dummy byte,
capture at most `CAP_MAX` payload bytes and drain the rest. -/
def readB1Go (tmo : Nat → Bool) : Nat → Nat → Bus → B1Out × Bus
  | _, 0, s => ((none, 0, ERR_TIMEOUT, some "wait_b1"), s)
  | scanned, fuel + 1, s =>
    if tmo scanned then ((none, 0, ERR_TIMEOUT, some "wait_b1"), s)
    else
      let (b, s1) := xfer DUMMY s
      if b = NACK then ((none, 0, ERR_NACK, some "wait_b1"), s1)
      else if b = RSP_B1 then
        let (lenL, s2) := xfer DUMMY s1
        let (lenH, s3) := xfer DUMMY s2
        let s4 := (xfer DUMMY s3).2
        let len := lenL ||| (lenH <<< 8)
        if len = 0 then ((some [], 0, SUCCESS, none), s4)
        else
          let rd := if len ≤ CAP_MAX then len else CAP_MAX
          let (payload, s5) := xferN rd s4
          let s6 := (xferN (len - rd) s5).2
          ((some payload, rd, SUCCESS, none), s6)
      else readB1Go tmo (scanned + 1) fuel s1

/-- `read_b1_payload_status(timeout_ms, scan_max)` from the source. -/
def readB1PayloadStatus (tmo : Nat → Bool) (scanMax : Nat) (s : Bus) : B1Out × Bus :=
  readB1Go tmo 0 scanMax s

/-! ### Python string primitives used by the drivers -/

/-- Remove the leading characters of `l` that are in `cs`. -/
def trimLeadList (cs : List Char) (l : List Char) : List Char :=
  l.dropWhile (fun c => cs.contains c)

/-- Remove the trailing characters of `l` that are in `cs`. -/
def trimTrailList (cs : List Char) (l : List Char) : List Char :=
  (l.reverse.dropWhile (fun c => cs.contains c)).reverse

/-- Python `str.strip(chars)`: remove characters of `cs` from both ends. -/
def stripCharsList (cs : List Char) (l : List Char) : List Char :=
  trimTrailList cs (trimLeadList cs l)

/-- The character set of Python's no-argument `str.strip()`. -/
def pyWhitespace : List Char := [' ', '\t', '\n', '\r', '\x0b', '\x0c']

/-- Python `str.strip()` on the character list. -/
def pyTrimList (l : List Char) : List Char :=
  stripCharsList pyWhitespace l

/-- Python `str.strip(chars)` on strings. -/
def stripChars (cs : List Char) (s : String) : String :=
  String.mk (stripCharsList cs s.data)

/-- Python `str.strip()` on strings. -/
def pyTrim (s : String) : String :=
  String.mk (pyTrimList s.data)

/-- Python `str.upper()` (the driver only handles ASCII text). -/
def upperStr (s : String) : String :=
  String.mk (s.data.map Char.toUpper)

/-- Python `str.startswith(p)`. -/
def startsWithS (p s : String) : Bool :=
  p.data.isPrefixOf s.data

/-- Python slicing `s[n:]`. -/
def dropS (n : Nat) (s : String) : String :=
  String.mk (s.data.drop n)

/-- Python slicing `s[:n]`. -/
def takeS (n : Nat) (s : String) : String :=
  String.mk (s.data.take n)

/-- Python `str.encode("ascii")` (driver strings are ASCII). -/
def encodeAscii (s : String) : List Nat :=
  s.data.map Char.toNat

/-- Python `bytes.decode("ascii", "ignore")`: non-ASCII bytes are dropped. -/
def decodeAsciiIgnore (l : List Nat) : List Char :=
  (l.filter (fun b => b < 128)).map Char.ofNat

/-- The `"\r\n"` character set used by `strip("\r\n")` in the source. -/
def crlfChars : List Char := ['\r', '\n']

/-! ### SPI AT command layer (`at_set`, `at_get`, `send_cmd`) -/

/-- The byte string `b` of `at_set`: the ASCII encoding of the command line
with `b"\r\n"` appended when not already present. -/
def atSetEncoded (cmd : String) : List Nat :=
  let b := encodeAscii cmd
  if [13, 10].isSuffixOf b then b else b ++ [13, 10]

/-- `at_set(cmd, ack_timeout_ms)` from the SPI source: header
`[b0, b1, len_lo, len_hi]`, ACK wait, payload `b[2:]` (the trailing CRLF
included), ACK wait.  Raises `ValueError` on a bad length and
`RuntimeError` on NACK/timeout, before or between bus exchanges exactly as
the source does. -/
def atSet (tmo1 tmo2 : Nat → Bool) (cmd : String) (s : Bus) : Except PyErr Bool × Bus :=
  let b := atSetEncoded cmd
  if b.length < 2 then (.error (.valueError "AT SET command too short"), s)
  else if b.length - 2 > 0xFFFF then (.error (.valueError "AT SET command too long"), s)
  else
    let s1 := (xfer (b.getD 0 0) s).2
    let s2 := (xfer (b.getD 1 0) s1).2
    let s3 := (xfer ((b.length - 2) &&& 0xFF) s2).2
    let s4 := (xfer (((b.length - 2) >>> 8) &&& 0xFF) s3).2
    match waitAck tmo1 4096 s4 with
    | (none, s5) => (.error (.runtimeError "ACK timeout (AT header)"), s5)
    | (some false, s5) => (.error (.runtimeError "NACK (AT header)"), s5)
    | (some true, s5) =>
      let s6 := (b.drop 2).foldl (fun acc byte => (xfer byte acc).2) s5
      match waitAck tmo2 4096 s6 with
      | (none, s7) => (.error (.runtimeError "ACK timeout (AT payload)"), s7)
      | (some false, s7) => (.error (.runtimeError "NACK (AT payload)"), s7)
      | (some true, s7) => (.ok true, s7)

/-- `at_get(cmd2, ...)` from the SPI source: transmit the two command
characters plus CRLF, wait for the interrupt line (result unused by the
source), then read a `0xB1` response.  `_intLow` models the `wait_int_low`
outcome; it performs no bus exchange. -/
def atGet (_intLow : Bool) (rxTmo : Nat → Bool) (cmd2 : String) (s : Bus) :
    Except PyErr (Option (List Nat) × Nat) × Bus :=
  if cmd2.length ≠ 2 then
    (.error (.valueError "AT GET supports only 2-character commands"), s)
  else
    let s1 := (xfer (cmd2.data.getD 0 'A').toNat s).2
    let s2 := (xfer (cmd2.data.getD 1 'A').toNat s1).2
    let s3 := (xfer 0x0D s2).2
    let s4 := (xfer 0x0A s3).2
    match readB1PayloadStatus rxTmo 8192 s4 with
    | ((mv, n, _, _), s5) => (.ok (mv, n), s5)

/-- `_decode_resp_ascii(mv, n)` from the SPI source: truncate at the first
NUL byte, then decode as ASCII ignoring non-ASCII bytes. -/
def decodeRespAscii (l : List Nat) : String :=
  String.mk (decodeAsciiIgnore (l.takeWhile (fun b => b ≠ 0)))

/-- `_parse_get_value(cmd, resp_ascii)` from the SPI source: strip CR/LF
from both ends, strip the echoed command code case-insensitively when
present, and strip whitespace from the remainder. -/
def spiParseGetValue (cmd resp : String) : String :=
  let s := stripChars crlfChars resp
  let cu := upperStr cmd
  let tail := if startsWithS cu (upperStr s) then dropS cu.length s else s
  pyTrim tail

/-- `_NO_PARAM_SET_CMDS` from the SPI source. -/
def noParamSetCmds : List String := ["SV", "RT", "FR", "EX"]

/-- Result dictionary shapes of the SPI `send_cmd`. -/
inductive SpiCmdResult where
  | help
  | set (ok : Bool)
  | getFail
  | getOk (value : String) (raw : String)
  deriving DecidableEq, Repr

/-- `send_cmd(at_cmd, at_param)` from the SPI source.  `at_param = none`
models Python `None`; the dispatch test is the source's
`if at_param or (cmd in _NO_PARAM_SET_CMDS)` — note `cmd` is stripped but
not upper-cased there. -/
def spiSendCmd (tmo1 tmo2 : Nat → Bool) (intLow : Bool) (rxTmo : Nat → Bool)
    (atCmd atParam : Option String) (s : Bus) : Except PyErr SpiCmdResult × Bus :=
  let cmd := pyTrim (atCmd.getD "")
  if cmd = "" then (.error (.valueError "at_cmd is empty"), s)
  else
    let cmdU := upperStr cmd
    if cmdU = "HELP" ∨ cmdU = "?" then (.ok .help, s)
    else if atParam.getD "" ≠ "" ∨ cmd ∈ noParamSetCmds then
      let cmdline := cmd ++ atParam.getD ""
      match atSet tmo1 tmo2 cmdline s with
      | (.ok ok, s1) => (.ok (.set ok), s1)
      | (.error e, s1) => (.error e, s1)
    else
      match atGet intLow rxTmo cmd s with
      | (.error e, s1) => (.error e, s1)
      | (.ok (mv, n), s1) =>
        match mv with
        | none => (.ok .getFail, s1)
        | some p =>
          if n = 0 then (.ok .getFail, s1)
          else
            let respAscii := decodeRespAscii (p.take n)
            (.ok (.getOk (spiParseGetValue cmd respAscii)
                         (stripChars crlfChars respAscii)), s1)

/-! ### SPI data path (`data_send`, `data_recv`, `send_data`, `recv_data`) -/

/-- `data_send(payload, ack_timeout_ms)` from the SPI source:
`[0xA0, len_lo, len_hi, 0xFF]`, ACK wait, payload, ACK wait.  Raises
`ValueError` for an oversize payload before any bus exchange and
`S2EError` on NACK/timeout. -/
def dataSend (tmo1 tmo2 : Nat → Bool) (payload : List Nat) (s : Bus) :
    Except PyErr Bool × Bus :=
  if payload.length > 0xFFFF then (.error (.valueError "DATA payload too long"), s)
  else
    let s1 := (xfer DATA_TX_A0 s).2
    let s2 := (xfer (payload.length &&& 0xFF) s1).2
    let s3 := (xfer ((payload.length >>> 8) &&& 0xFF) s2).2
    let s4 := (xfer DUMMY s3).2
    match waitAck tmo1 4096 s4 with
    | (none, s5) =>
      (.error (.s2eError "ACK timeout (DATA header)" ERR_TIMEOUT (some "data_header_ack")), s5)
    | (some false, s5) =>
      (.error (.s2eError "NACK (DATA header)" ERR_NACK (some "data_header_ack")), s5)
    | (some true, s5) =>
      let s6 := payload.foldl (fun acc byte => (xfer byte acc).2) s5
      match waitAck tmo2 4096 s6 with
      | (none, s7) =>
        (.error (.s2eError "ACK timeout (DATA payload)" ERR_TIMEOUT (some "data_payload_ack")), s7)
      | (some false, s7) =>
        (.error (.s2eError "NACK (DATA payload)" ERR_NACK (some "data_payload_ack")), s7)
      | (some true, s7) => (.ok true, s7)

/-- `data_recv(...)` from the SPI source.  `intLow` is the `wait_int_low`
outcome: when the interrupt line never goes low the function returns
`None` (no data) without touching the bus; otherwise it sends
`[0xB0, 0xFF, 0xFF, 0xFF]` and reads a `0xB1` response, raising `S2EError`
on a non-`SUCCESS` status. -/
def dataRecv (intLow : Bool) (tmo : Nat → Bool) (s : Bus) :
    Except PyErr (Option (Option (List Nat) × Nat)) × Bus :=
  if ¬intLow then (.ok none, s)
  else
    let s1 := (xfer CMD_B0 s).2
    let s2 := (xfer DUMMY s1).2
    let s3 := (xfer DUMMY s2).2
    let s4 := (xfer DUMMY s3).2
    match readB1PayloadStatus tmo DATA_SCAN_MAX s4 with
    | ((mv, n, code, stage), s5) =>
      if code ≠ SUCCESS then
        (.error (.s2eError (if code = ERR_TIMEOUT then "RX Timeout" else "RX NACK") code stage), s5)
      else (.ok (some (mv, n)), s5)

/-- The `send_data` result dictionary.  `errCode = none` models a dict with
no `"err_code"` key at all (the generic-exception branch); `some none`
would model `"err_code": None`; `some (some k)` models a numeric code. -/
structure SpiTxOutcome where
  ok : Bool
  len : Nat
  errCode : Option (Option Int)
  stage : Option String
  deriving DecidableEq, Repr

/-- The `recv_data` result dictionary, with the same `errCode` convention
(`some none` is the no-data dict's `"err_code": None`). -/
structure SpiRxOutcome where
  ok : Bool
  len : Nat
  mv : Option (List Nat)
  errCode : Option (Option Int)
  stage : Option String
  deriving DecidableEq, Repr

/-- `send_data(payload)` from the SPI source: `S2EError` is converted to a
dictionary carrying its `err_code`, any other exception (here the
`ValueError` of `data_send`) to a dictionary with no `err_code` key. -/
def spiSendData (tmo1 tmo2 : Nat → Bool) (payload : List Nat) (s : Bus) :
    SpiTxOutcome × Bus :=
  match dataSend tmo1 tmo2 payload s with
  | (.ok ok, s1) =>
    ({ ok := ok, len := payload.length, errCode := some (some SUCCESS), stage := none }, s1)
  | (.error (.s2eError _ code stage), s1) =>
    ({ ok := false, len := payload.length, errCode := some (some code), stage := stage }, s1)
  | (.error _, s1) =>
    ({ ok := false, len := 0, errCode := none, stage := none }, s1)

/-- The no-data dictionary returned by the SPI `recv_data` when
`data_recv` reports no interrupt: `{"ok": False, "len": 0, "mv": None,
"err_code": None, "stage": "no_int"}`. -/
def spiNoDataOutcome : SpiRxOutcome :=
  { ok := false, len := 0, mv := none, errCode := some none, stage := some "no_int" }

/-- `recv_data()` from the SPI source. -/
def spiRecvData (intLow : Bool) (tmo : Nat → Bool) (s : Bus) : SpiRxOutcome × Bus :=
  match dataRecv intLow tmo s with
  | (.ok none, s1) => (spiNoDataOutcome, s1)
  | (.ok (some (mv, n)), s1) =>
    ({ ok := true, len := n, mv := mv, errCode := some (some SUCCESS), stage := none }, s1)
  | (.error (.s2eError _ code stage), s1) =>
    ({ ok := false, len := 0, mv := none, errCode := some (some code), stage := stage }, s1)
  | (.error _, s1) =>
    ({ ok := false, len := 0, mv := none, errCode := none, stage := none }, s1)

/-! ### UART driver (`src/lib/w55rp20_s2e_uart.py`)

The UART hardware boundary (`uart.write`, `_read_response`,
`uart.readinto`) is modelled by oracles: `raw` is what `_read_response`
returns for the call (`none` models Python `None`, i.e. nothing arrived
within the idle window), and `n`/`buf` are the count and buffer contents
produced by `uart.readinto(_RX_BUF)`. -/

/-- UART `_decode_resp_ascii(raw)`: `None` passes through, bytes are
decoded as ASCII ignoring non-ASCII bytes (no NUL truncation here). -/
def uartDecodeRespAscii (raw : Option (List Nat)) : Option String :=
  raw.map (fun l => String.mk (decodeAsciiIgnore l))

/-- UART `_parse_get_value(cmd2, resp_ascii)`: strip whitespace, then
require the first two characters to match the echoed command code
(case-insensitively); on mismatch return `None`, not the text. -/
def uartParseGetValue (cmd2 : Option String) (respAscii : Option String) : Option String :=
  match respAscii with
  | none => none
  | some r =>
    if r = "" then none
    else
      let s := pyTrim r
      let c := upperStr (pyTrim (cmd2.getD ""))
      if 2 ≤ s.length ∧ upperStr (takeS 2 s) = c then some (dropS 2 s) else none

/-- Python's substring test `p in l`, on character lists. -/
def hasInfixList (p : List Char) : List Char → Bool
  | [] => p.isPrefixOf ([] : List Char)
  | c :: rest => p.isPrefixOf (c :: rest) || hasInfixList p rest

/-- UART `_is_error_response(resp_ascii)`: true when the upper-cased text
contains `"ER"`, `"ERROR"` or `"INVALID"`. -/
def uartIsErrorResp (r : String) : Bool :=
  let u := (upperStr r).data
  hasInfixList "ER".data u || hasInfixList "ERROR".data u || hasInfixList "INVALID".data u

/-- Result dictionary shapes of the UART `send_cmd`. -/
inductive UartCmdResult where
  | help
  | set (ok : Bool) (raw : Option String)
  | get (ok : Bool) (value : Option String) (raw : Option String)
  deriving DecidableEq, Repr

/-- `send_cmd(at_cmd, at_param)` from the UART source.  The dispatch is
`if param:` only — there is no no-parameter SET command set here, and the
command code is stripped and upper-cased before use. -/
def uartSendCmd (raw : Option (List Nat)) (atCmd atParam : Option String) : UartCmdResult :=
  let cmd := upperStr (pyTrim (atCmd.getD ""))
  let param := atParam.getD ""
  if cmd = "HELP" ∨ cmd = "?" then .help
  else if param ≠ "" then
    match uartDecodeRespAscii raw with
    | none => .set true none
    | some r => .set (!uartIsErrorResp r) (some (pyTrim r))
  else
    match uartDecodeRespAscii raw with
    | none => .get false none none
    | some r =>
      if r = "" then .get false none none
      else
        let v := uartParseGetValue (some cmd) (some r)
        .get (v ≠ none) v (some (pyTrim r))

/-- The UART `recv_data` result dictionary: `{"type","ok","mv","len"}` —
note there is no `err_code` key in this driver at all. -/
structure UartRxOutcome where
  ok : Bool
  mv : Option (List Nat)
  len : Nat
  deriving DecidableEq, Repr

/-- `recv_data()` from the UART source: one non-blocking
`uart.readinto(_RX_BUF)`; `n = 0` (or `None`, both falsy) is the no-data
outcome. -/
def uartRecvData (n : Nat) (buf : List Nat) : UartRxOutcome :=
  if n = 0 then { ok := false, mv := none, len := 0 }
  else { ok := true, mv := some (buf.take n), len := n }

/-! ### Spec-side definitions used to check refinement claims -/

/-- The value the SPI `send_cmd` computes for a raw GET response payload:
the composition `_parse_get_value(cmd, _decode_resp_ascii(mv, n))` from
the source. -/
def spiRespValue (cmd : String) (payload : List Nat) : String :=
  spiParseGetValue cmd (decodeRespAscii payload)

/-- Modelled from the spec: the GET-response parsing algorithm exactly as
the spec words it — decode the payload as ASCII, truncate at the first NUL
byte, strip **trailing** CR/LF only, strip the echoed command code
case-insensitively when present, trim the remainder. -/
def claimC7Value (cmd : String) (payload : List Nat) : String :=
  let text := (decodeAsciiIgnore payload).takeWhile (fun c => c ≠ Char.ofNat 0)
  let s := trimTrailList crlfChars text
  let cu := cmd.data.map Char.toUpper
  let tail := if (s.take cu.length).map Char.toUpper = cu then s.drop cu.length else s
  String.mk (pyTrimList tail)

/-- Modelled from the spec (amended): as `claimC7Value` but stripping CR/LF
from **both** ends, which is what Python's `strip("\r\n")` does. -/
def claimC7AmendedValue (cmd : String) (payload : List Nat) : String :=
  let text := (decodeAsciiIgnore payload).takeWhile (fun c => c ≠ Char.ofNat 0)
  let s := stripCharsList crlfChars text
  let cu := cmd.data.map Char.toUpper
  let tail := if (s.take cu.length).map Char.toUpper = cu then s.drop cu.length else s
  String.mk (pyTrimList tail)

/-- The byte sequence the spec claims `at_set("LI192.168.11.37")` encodes:
`['L','I',0x0F,0x00]` followed by the 13 parameter characters and nothing
else. -/
def claimedC3Frame : List Nat :=
  ['L'.toNat, 'I'.toNat, 0x0F, 0x00] ++ encodeAscii "192.168.11.37"

/-- A deadline oracle that never fires. -/
def tmoNever : Nat → Bool := fun _ => false

/-- A deadline oracle that has already fired at the first poll. -/
def tmoNow : Nat → Bool := fun _ => true

/-- A fresh bus whose peer always answers `ACK`. -/
def ackBus : Bus := { rx := fun _ => ACK, cnt := 0, tx := [] }

/-- A fresh bus whose peer always answers the filler byte `0xFF`. -/
def idleBus : Bus := { rx := fun _ => DUMMY, cnt := 0, tx := [] }

/-! ### Basic lemmas about the bus primitives -/

@[simp]
lemma xfer_fst (t : Nat) (s : Bus) : (xfer t s).1 = s.rx s.cnt := rfl

@[simp]
lemma xfer_rx (t : Nat) (s : Bus) : (xfer t s).2.rx = s.rx := rfl

@[simp]
lemma xfer_cnt (t : Nat) (s : Bus) : (xfer t s).2.cnt = s.cnt + 1 := rfl

@[simp]
lemma xferN_rx (n : Nat) : ∀ s : Bus, (xferN n s).2.rx = s.rx := by
  induction n with
  | zero => intro s; rfl
  | succ m ih => intro s; simpa [xferN, xfer] using ih _

@[simp]
lemma xferN_cnt (n : Nat) : ∀ s : Bus, (xferN n s).2.cnt = s.cnt + n := by
  induction n with
  | zero => intro s; rfl
  | succ m ih =>
    intro s
    have h := ih (xfer DUMMY s).2
    simp only [xferN, h, xfer_cnt]
    omega

lemma xferN_fst (n : Nat) : ∀ s : Bus,
    (xferN n s).1 = (List.range n).map (fun k => s.rx (s.cnt + k)) := by
  induction n with
  | zero => intro s; rfl
  | succ m ih =>
    intro s
    have h := ih (xfer DUMMY s).2
    simp only [xferN, h, xfer_rx, xfer_cnt, xfer_fst]
    rw [List.range_succ_eq_map]
    simp only [List.map_cons, List.map_map, Function.comp, Nat.add_zero]
    refine congrArg₂ List.cons rfl ?_
    apply List.map_congr_left
    intro a _
    congr 1
    omega

/-! ### The ACK/NACK handshake (`wait_ack`) -/

lemma waitAckGo_succ (tmo : Nat → Bool) (cnt fuel : Nat) (s : Bus) :
    waitAckGo tmo cnt (fuel + 1) s =
      if tmo cnt then (none, s)
      else if s.rx s.cnt = ACK then
        (some true, (xfer DUMMY (xfer DUMMY (xfer DUMMY (xfer DUMMY s).2).2).2).2)
      else if s.rx s.cnt = NACK then (some false, (xfer DUMMY s).2)
      else waitAckGo tmo (cnt + 1) fuel (xfer DUMMY s).2 := rfl

lemma waitAckGo_spec (tmo : Nat → Bool) : ∀ (fuel cnt : Nat) (s : Bus),
    ((waitAckGo tmo cnt fuel s).2.cnt ≤ s.cnt + fuel + 3) ∧
    ((waitAckGo tmo cnt fuel s).1 = some true →
      ∃ i, i < fuel ∧ s.rx (s.cnt + i) = ACK ∧
        (waitAckGo tmo cnt fuel s).2.cnt = s.cnt + i + 4) ∧
    ((waitAckGo tmo cnt fuel s).1 = some false →
      ∃ i, i < fuel ∧ s.rx (s.cnt + i) = NACK ∧
        (waitAckGo tmo cnt fuel s).2.cnt = s.cnt + i + 1) ∧
    ((∀ i, i < fuel → s.rx (s.cnt + i) ≠ ACK ∧ s.rx (s.cnt + i) ≠ NACK) →
      (waitAckGo tmo cnt fuel s).1 = none) := by
  intro fuel
  induction fuel with
  | zero =>
    intro cnt s
    refine ⟨?_, ?_, ?_, ?_⟩
    · show s.cnt ≤ s.cnt + 0 + 3
      omega
    · intro h; exact Option.noConfusion h
    · intro h; exact Option.noConfusion h
    · intro _; rfl
  | succ m ih =>
    intro cnt s
    rw [waitAckGo_succ]
    by_cases htmo : tmo cnt = true
    · rw [if_pos htmo]
      refine ⟨?_, ?_, ?_, ?_⟩
      · show s.cnt ≤ s.cnt + (m + 1) + 3
        omega
      · intro h; exact Option.noConfusion h
      · intro h; exact Option.noConfusion h
      · intro _; rfl
    · rw [if_neg htmo]
      by_cases hack : s.rx s.cnt = ACK
      · rw [if_pos hack]
        refine ⟨?_, ?_, ?_, ?_⟩
        · show (xfer DUMMY (xfer DUMMY (xfer DUMMY (xfer DUMMY s).2).2).2).2.cnt ≤
            s.cnt + (m + 1) + 3
          simp only [xfer_cnt]
          omega
        · intro _
          refine ⟨0, by omega, by simpa using hack, ?_⟩
          show (xfer DUMMY (xfer DUMMY (xfer DUMMY (xfer DUMMY s).2).2).2).2.cnt =
            s.cnt + 0 + 4
          simp only [xfer_cnt]
        · intro h
          exact absurd h (by simp)
        · intro h
          exact absurd (show s.rx (s.cnt + 0) = ACK by simpa using hack) (h 0 (by omega)).1
      · rw [if_neg hack]
        by_cases hnack : s.rx s.cnt = NACK
        · rw [if_pos hnack]
          refine ⟨?_, ?_, ?_, ?_⟩
          · show (xfer DUMMY s).2.cnt ≤ s.cnt + (m + 1) + 3
            simp only [xfer_cnt]
            omega
          · intro h
            exact absurd h (by simp)
          · intro _
            refine ⟨0, by omega, by simpa using hnack, ?_⟩
            show (xfer DUMMY s).2.cnt = s.cnt + 0 + 1
            simp only [xfer_cnt]
          · intro h
            exact absurd (show s.rx (s.cnt + 0) = NACK by simpa using hnack) (h 0 (by omega)).2
        · rw [if_neg hnack]
          obtain ⟨ih1, ih2, ih3, ih4⟩ := ih (cnt + 1) (xfer DUMMY s).2
          simp only [xfer_rx, xfer_cnt] at ih1 ih2 ih3 ih4
          refine ⟨by omega, ?_, ?_, ?_⟩
          · intro h
            obtain ⟨i, hi, hrx, hcnt⟩ := ih2 h
            refine ⟨i + 1, by omega, ?_, by omega⟩
            have heq : s.cnt + (i + 1) = s.cnt + 1 + i := by omega
            rw [heq]
            exact hrx
          · intro h
            obtain ⟨i, hi, hrx, hcnt⟩ := ih3 h
            refine ⟨i + 1, by omega, ?_, by omega⟩
            have heq : s.cnt + (i + 1) = s.cnt + 1 + i := by omega
            rw [heq]
            exact hrx
          · intro h
            apply ih4
            intro i hi
            have hh := h (i + 1) (by omega)
            have heq : s.cnt + (i + 1) = s.cnt + 1 + i := by omega
            rw [heq] at hh
            exact hh

/-- **C6** — The SPI ACK/NACK handshake `wait_ack` always terminates within
its byte budget: the bus counter grows by at most `max_bytes + 3`
exchanges; when it returns `True` (Acked) an `ACK` sentinel was observed
within the budget and exactly three more filler bytes were exchanged after
it; when it returns `False` (Nacked) a `NACK` sentinel was observed; and
when neither sentinel occurs in the scanned window it returns `None`
(TimedOut), the outcome distinct from both others.  (Being a total Lean
function over the deadline oracle `tmo`, it can never block
indefinitely.) -/
theorem waitAck_tri_state (tmo : Nat → Bool) (maxBytes : Nat) (s : Bus) :
    ((waitAck tmo maxBytes s).2.cnt ≤ s.cnt + maxBytes + 3) ∧
    ((waitAck tmo maxBytes s).1 = some true →
      ∃ i, i < maxBytes ∧ s.rx (s.cnt + i) = ACK ∧
        (waitAck tmo maxBytes s).2.cnt = s.cnt + i + 4) ∧
    ((waitAck tmo maxBytes s).1 = some false →
      ∃ i, i < maxBytes ∧ s.rx (s.cnt + i) = NACK ∧
        (waitAck tmo maxBytes s).2.cnt = s.cnt + i + 1) ∧
    ((∀ i, i < maxBytes → s.rx (s.cnt + i) ≠ ACK ∧ s.rx (s.cnt + i) ≠ NACK) →
      (waitAck tmo maxBytes s).1 = none) :=
  waitAckGo_spec tmo maxBytes 0 s

/-- Witness for C6: on a bus that only ever answers filler bytes, a
5-exchange budget ends in the `None` (TimedOut) outcome within bounds. -/
theorem waitAck_tri_state_witness :
    (waitAck tmoNever 5 idleBus).1 = none ∧
    (waitAck tmoNever 5 idleBus).2.cnt ≤ idleBus.cnt + 5 + 3 := by
  have h := waitAck_tri_state tmoNever 5 idleBus
  refine ⟨h.2.2.2 ?_, h.1⟩
  intro i _
  simp [idleBus, DUMMY, ACK, NACK]

/-! ### The response reader (`read_b1_payload_status`) -/

/-- The bus after `i` filler exchanges whose received bytes were discarded
by the scan loop. -/
def skipBus (i : Nat) (s : Bus) : Bus :=
  { s with cnt := s.cnt + i, tx := s.tx ++ List.replicate i (DUMMY % 256) }

lemma skipBus_zero (s : Bus) : skipBus 0 s = s := by
  simp [skipBus]

lemma skipBus_rx (i : Nat) (s : Bus) : (skipBus i s).rx = s.rx := rfl

lemma skipBus_cnt (i : Nat) (s : Bus) : (skipBus i s).cnt = s.cnt + i := rfl

lemma skipBus_xfer (i : Nat) (s : Bus) : skipBus i (xfer DUMMY s).2 = skipBus (i + 1) s := by
  show Bus.mk s.rx (s.cnt + 1 + i) (s.tx ++ [DUMMY % 256] ++ List.replicate i (DUMMY % 256)) =
    Bus.mk s.rx (s.cnt + (i + 1)) (s.tx ++ List.replicate (i + 1) (DUMMY % 256))
  refine congrArg₂ (Bus.mk s.rx) (by omega) ?_
  rw [List.append_assoc]
  rfl

lemma readB1Go_succ (tmo : Nat → Bool) (scanned fuel : Nat) (s : Bus) :
    readB1Go tmo scanned (fuel + 1) s =
      if tmo scanned then ((none, 0, ERR_TIMEOUT, some "wait_b1"), s)
      else if s.rx s.cnt = NACK then ((none, 0, ERR_NACK, some "wait_b1"), (xfer DUMMY s).2)
      else if s.rx s.cnt = RSP_B1 then
        let s4 := (xfer DUMMY (xfer DUMMY (xfer DUMMY (xfer DUMMY s).2).2).2).2
        let len := s.rx (s.cnt + 1) ||| (s.rx (s.cnt + 2) <<< 8)
        if len = 0 then ((some [], 0, SUCCESS, none), s4)
        else
          let rd := if len ≤ CAP_MAX then len else CAP_MAX
          ((some (xferN rd s4).1, rd, SUCCESS, none), (xferN (len - rd) (xferN rd s4).2).2)
      else readB1Go tmo (scanned + 1) fuel (xfer DUMMY s).2 := rfl

/-- The scan loop steps over `i` leading bytes that are neither `NACK` nor
the `0xB1` header while the deadline has not fired. -/
lemma readB1Go_skip (tmo : Nat → Bool) : ∀ (i scanned fuel : Nat) (s : Bus),
    (∀ j, j < i → tmo (scanned + j) = false) →
    (∀ j, j < i → s.rx (s.cnt + j) ≠ NACK ∧ s.rx (s.cnt + j) ≠ RSP_B1) →
    i ≤ fuel →
    readB1Go tmo scanned fuel s = readB1Go tmo (scanned + i) (fuel - i) (skipBus i s) := by
  intro i
  induction i with
  | zero =>
    intro scanned fuel s _ _ _
    rw [skipBus_zero]
    rfl
  | succ m ih =>
    intro scanned fuel s hTmo hPre hLe
    obtain ⟨f, rfl⟩ : ∃ f, fuel = f + 1 := ⟨fuel - 1, by omega⟩
    have ht0 : tmo scanned = false := by simpa using hTmo 0 (by omega)
    have hp0 := hPre 0 (by omega)
    rw [readB1Go_succ]
    rw [if_neg (by simp [ht0]),
        if_neg (by simpa using hp0.1),
        if_neg (by simpa using hp0.2)]
    rw [ih (scanned + 1) f (xfer DUMMY s).2
      (fun j hj => by
        have hh := hTmo (j + 1) (by omega)
        rwa [show scanned + (j + 1) = scanned + 1 + j by omega] at hh)
      (fun j hj => by
        have hh := hPre (j + 1) (by omega)
        have heq : s.cnt + (j + 1) = (xfer DUMMY s).2.cnt + j := by
          simp only [xfer_cnt]; omega
        rwa [heq] at hh)
      (by omega)]
    rw [skipBus_xfer]
    have h1 : scanned + 1 + m = scanned + (m + 1) := by omega
    have h2 : f - m = f + 1 - (m + 1) := by omega
    rw [h1, h2]

/-- **C4** — When the `0xB1` response header (found after `i` clean scan
exchanges) declares a 16-bit length `L` greater than the buffer capacity
2048, `read_b1_payload_status` captures exactly the first 2048 payload
bytes, returns length 2048 with the `SUCCESS` status, and performs exactly
`L - 2048` further exchanges whose bytes are discarded: the total exchange
count is `i + 4 + L` (scan byte, two length bytes, one dummy, `L` payload
bytes of which 2048 are kept). -/
theorem readB1_truncation (tmo : Nat → Bool) (s : Bus) (scanMax i L : Nat)
    (hTmo : ∀ j, j ≤ i → tmo j = false)
    (hPre : ∀ j, j < i → s.rx (s.cnt + j) ≠ NACK ∧ s.rx (s.cnt + j) ≠ RSP_B1)
    (hHdr : s.rx (s.cnt + i) = RSP_B1)
    (hLen : s.rx (s.cnt + i + 1) ||| (s.rx (s.cnt + i + 2) <<< 8) = L)
    (hBig : L > CAP_MAX)
    (hScan : i < scanMax) :
    (readB1PayloadStatus tmo scanMax s).1 =
      (some ((List.range CAP_MAX).map (fun k => s.rx (s.cnt + i + 4 + k))),
        CAP_MAX, SUCCESS, none) ∧
    (readB1PayloadStatus tmo scanMax s).2.cnt = s.cnt + i + 4 + L := by
  unfold readB1PayloadStatus
  rw [readB1Go_skip tmo i 0 scanMax s (fun j hj => by simpa using hTmo j (by omega))
        hPre (by omega)]
  obtain ⟨k, hk⟩ : ∃ k, scanMax - i = k + 1 := ⟨scanMax - i - 1, by omega⟩
  rw [hk, readB1Go_succ]
  rw [if_neg (by simp [hTmo i (by omega)]),
      if_neg (by rw [skipBus_rx, skipBus_cnt, hHdr]; decide),
      if_pos (by rw [skipBus_rx, skipBus_cnt, hHdr])]
  simp only [skipBus_rx, skipBus_cnt]
  rw [show s.cnt + i + 1 + 1 = s.cnt + i + 2 by omega] at hLen ⊢
  rw [hLen]
  rw [if_neg (by omega), if_neg (by omega)]
  refine ⟨?_, ?_⟩
  · simp only [Prod.mk.injEq, xferN_fst, xfer_rx, xfer_cnt, skipBus_rx, skipBus_cnt]
  · simp only [xferN_cnt, xfer_cnt, skipBus_cnt]
    omega

/-- A bus whose peer immediately sends a `0xB1` response header declaring
length `0x0801 = 2049`, followed by payload filler. -/
def truncBus : Bus :=
  { rx := fun n => if n = 0 then RSP_B1 else if n = 1 then 1 else if n = 2 then 8 else 7,
    cnt := 0, tx := [] }

/-- Witness for C4: a response stream declaring length 2049 (`0xB1, 0x01,
0x08, ...`) yields exactly 2048 captured bytes, a `SUCCESS` status and
`0 + 4 + 2049` total exchanges. -/
theorem readB1_truncation_witness :
    (readB1PayloadStatus tmoNever 8192 truncBus).1 =
      (some ((List.range CAP_MAX).map (fun k => truncBus.rx (truncBus.cnt + 0 + 4 + k))),
        CAP_MAX, SUCCESS, none) ∧
    (readB1PayloadStatus tmoNever 8192 truncBus).2.cnt = truncBus.cnt + 0 + 4 + 2049 := by
  apply readB1_truncation tmoNever truncBus 8192 0 2049
  · intro j _; rfl
  · intro j hj; exact absurd hj (by omega)
  · rfl
  · decide
  · decide
  · decide

/-- **C10** — A `0xB1` response header declaring length 0 makes
`read_b1_payload_status` return a `SUCCESS` status with an empty view and
length 0 after exactly the `i + 4` header exchanges (no payload byte is
read), and this success outcome is distinct both from the timeout result
tuple and from the `recv_data` no-data outcome. -/
theorem readB1_zero_length (tmo : Nat → Bool) (s : Bus) (scanMax i : Nat)
    (hTmo : ∀ j, j ≤ i → tmo j = false)
    (hPre : ∀ j, j < i → s.rx (s.cnt + j) ≠ NACK ∧ s.rx (s.cnt + j) ≠ RSP_B1)
    (hHdr : s.rx (s.cnt + i) = RSP_B1)
    (hLen : s.rx (s.cnt + i + 1) ||| (s.rx (s.cnt + i + 2) <<< 8) = 0)
    (hScan : i < scanMax) :
    (readB1PayloadStatus tmo scanMax s).1 = (some [], 0, SUCCESS, none) ∧
    (readB1PayloadStatus tmo scanMax s).2.cnt = s.cnt + i + 4 ∧
    ((some [], 0, SUCCESS, none) : B1Out) ≠
      ((none, 0, ERR_TIMEOUT, some "wait_b1") : B1Out) ∧
    ({ ok := true, len := 0, mv := some [], errCode := some (some SUCCESS),
       stage := none } : SpiRxOutcome) ≠ spiNoDataOutcome := by
  unfold readB1PayloadStatus
  rw [readB1Go_skip tmo i 0 scanMax s (fun j hj => by simpa using hTmo j (by omega))
        hPre (by omega)]
  obtain ⟨k, hk⟩ : ∃ k, scanMax - i = k + 1 := ⟨scanMax - i - 1, by omega⟩
  rw [hk, readB1Go_succ]
  rw [if_neg (by simp [hTmo i (by omega)]),
      if_neg (by rw [skipBus_rx, skipBus_cnt, hHdr]; decide),
      if_pos (by rw [skipBus_rx, skipBus_cnt, hHdr])]
  simp only [skipBus_rx, skipBus_cnt]
  rw [show s.cnt + i + 1 + 1 = s.cnt + i + 2 by omega] at hLen ⊢
  rw [hLen]
  rw [if_pos rfl]
  refine ⟨rfl, ?_, by decide, by decide⟩
  simp only [xfer_cnt, skipBus_cnt]

/-- A bus whose peer immediately sends a `0xB1` header declaring length 0. -/
def zeroLenBus : Bus :=
  { rx := fun n => if n = 0 then RSP_B1 else 0, cnt := 0, tx := [] }

/-- Witness for C10: the zero-length response stream produces the empty
success outcome after exactly 4 exchanges. -/
theorem readB1_zero_length_witness :
    (readB1PayloadStatus tmoNever 8192 zeroLenBus).1 = (some [], 0, SUCCESS, none) ∧
    (readB1PayloadStatus tmoNever 8192 zeroLenBus).2.cnt = zeroLenBus.cnt + 0 + 4 ∧
    ((some [], 0, SUCCESS, none) : B1Out) ≠
      ((none, 0, ERR_TIMEOUT, some "wait_b1") : B1Out) ∧
    ({ ok := true, len := 0, mv := some [], errCode := some (some SUCCESS),
       stage := none } : SpiRxOutcome) ≠ spiNoDataOutcome := by
  apply readB1_zero_length tmoNever zeroLenBus 8192 0
  · intro j _; rfl
  · intro j hj; exact absurd hj (by omega)
  · rfl
  · decide
  · decide

/-! ### Oversize command lines and payloads (C9) -/

lemma atSetEncoded_length (cmd : String) :
    (atSetEncoded cmd).length = cmd.length ∨ (atSetEncoded cmd).length = cmd.length + 2 := by
  simp only [atSetEncoded]
  split
  · left
    show (List.map Char.toNat cmd.data).length = cmd.length
    rw [List.length_map]
    rfl
  · right
    show (List.map Char.toNat cmd.data ++ [13, 10]).length = cmd.length + 2
    rw [List.length_append, List.length_map]
    rfl

/-- **C9** — An `at_set` command line whose encoded length (with the
appended CRLF) minus 2 exceeds `0xFFFF`, and a `data_send` payload longer
than `0xFFFF` bytes, are both rejected with a `ValueError` before any byte
is exchanged: the bus state is returned entirely unchanged. -/
theorem oversize_rejected (tmo1 tmo2 tmo3 tmo4 : Nat → Bool) (cmd : String)
    (payload : List Nat) (s t : Bus)
    (hCmd : (atSetEncoded cmd).length - 2 > 0xFFFF)
    (hPay : payload.length > 0xFFFF) :
    atSet tmo1 tmo2 cmd s = (.error (.valueError "AT SET command too long"), s) ∧
    dataSend tmo3 tmo4 payload t = (.error (.valueError "DATA payload too long"), t) := by
  constructor
  · unfold atSet
    rw [if_neg (by omega), if_pos hCmd]
  · unfold dataSend
    rw [if_pos hPay]

/-- A 70000-character command string (oversize for the 16-bit length). -/
def bigCmd : String := String.mk (List.replicate 70000 'a')

/-- A 70000-byte payload (oversize for the 16-bit length). -/
def bigPayload : List Nat := List.replicate 70000 0

/-- Witness for C9: the oversize command and payload are rejected with the
bus untouched. -/
theorem oversize_rejected_witness :
    atSet tmoNever tmoNever bigCmd idleBus =
      (.error (.valueError "AT SET command too long"), idleBus) ∧
    dataSend tmoNever tmoNever bigPayload idleBus =
      (.error (.valueError "DATA payload too long"), idleBus) := by
  apply oversize_rejected
  · have h2 : bigCmd.length = 70000 := by
      show (List.replicate 70000 'a').length = 70000
      rw [List.length_replicate]
    rcases atSetEncoded_length bigCmd with h | h <;> rw [h, h2] <;> omega
  · show (List.replicate 70000 (0 : Nat)).length > 0xFFFF
    rw [List.length_replicate]
    omega

/-! ### The encoded SET frame for `LI192.168.11.37` (C3) -/

/-- **C3 counterexample** — The claim's byte list for the SET frame of
code `"LI"` with parameter `"192.168.11.37"` is not what the driver
transmits: filtering the ACK-wait filler (`0xFF`) exchanges out of the
MOSI trace of a successful `send_cmd` does not give the claimed 17-byte
sequence. -/
theorem atSet_li_frame_counterexample :
    (spiSendCmd tmoNever tmoNever true tmoNever (some "LI") (some "192.168.11.37")
        ackBus).2.tx.filter (fun b => b ≠ DUMMY) ≠ claimedC3Frame := by
  decide

/-- **C3 (amended)** — The SET frame for code `"LI"` with parameter
`"192.168.11.37"` is the claimed sequence `['L','I',0x0F,0x00] ++
"192.168.11.37"` **followed by the CRLF terminator `0x0D 0x0A`**: the
declared little-endian length 15 counts the 13 parameter bytes plus the
CRLF, and the CRLF is transmitted as part of the payload phase. -/
theorem atSet_li_frame :
    (spiSendCmd tmoNever tmoNever true tmoNever (some "LI") (some "192.168.11.37")
        ackBus).2.tx.filter (fun b => b ≠ DUMMY) = claimedC3Frame ++ [0x0D, 0x0A] ∧
    (spiSendCmd tmoNever tmoNever true tmoNever (some "LI") (some "192.168.11.37")
        ackBus).1 = .ok (.set true) := by
  decide

/-! ### Error propagation through the public operations (C2) -/

/-- **C2 counterexample** — The SPI `send_cmd` has no exception handler:
when the header ACK wait times out, `at_set`'s `RuntimeError` propagates
out of the public `send_cmd` call instead of being reported through an
error-code field, contradicting the claim that no public call lets a
transport-level failure escape (and the claimed `-99 Unknown` code appears
nowhere in the driver). -/
theorem spiSendCmd_exception_leak :
    (spiSendCmd tmoNow tmoNow true tmoNever (some "LI") (some "192.168.11.2") idleBus).1 =
      .error (.runtimeError "ACK timeout (AT header)") := by
  decide

lemma readB1Go_code (tmo : Nat → Bool) : ∀ (fuel scanned : Nat) (s : Bus),
    (readB1Go tmo scanned fuel s).1.2.2.1 = SUCCESS ∨
    (readB1Go tmo scanned fuel s).1.2.2.1 = ERR_NACK ∨
    (readB1Go tmo scanned fuel s).1.2.2.1 = ERR_TIMEOUT := by
  intro fuel
  induction fuel with
  | zero =>
    intro scanned s
    right; right; rfl
  | succ m ih =>
    intro scanned s
    rw [readB1Go_succ]
    by_cases htmo : tmo scanned = true
    · rw [if_pos htmo]; right; right; rfl
    · rw [if_neg htmo]
      by_cases hnack : s.rx s.cnt = NACK
      · rw [if_pos hnack]; right; left; rfl
      · rw [if_neg hnack]
        by_cases hb1 : s.rx s.cnt = RSP_B1
        · rw [if_pos hb1]
          left
          dsimp only
          split <;> rfl
        · rw [if_neg hb1]
          exact ih (scanned + 1) (xfer DUMMY s).2

lemma dataSend_classify (tmo1 tmo2 : Nat → Bool) (payload : List Nat) (s : Bus) :
    (dataSend tmo1 tmo2 payload s).1 = .ok true ∨
    (dataSend tmo1 tmo2 payload s).1 = .error (.valueError "DATA payload too long") ∨
    (∃ m st, (dataSend tmo1 tmo2 payload s).1 = .error (.s2eError m ERR_TIMEOUT st)) ∨
    (∃ m st, (dataSend tmo1 tmo2 payload s).1 = .error (.s2eError m ERR_NACK st)) := by
  unfold dataSend
  by_cases h : payload.length > 0xFFFF
  · rw [if_pos h]; right; left; rfl
  · rw [if_neg h]
    dsimp only
    rcases h1 : waitAck tmo1 4096 ((xfer DUMMY ((xfer ((payload.length >>> 8) &&& 0xFF)
        ((xfer (payload.length &&& 0xFF) ((xfer DATA_TX_A0 s).2)).2)).2)).2) with ⟨r1, s5⟩
    rcases r1 with _ | b1
    · right; right; left; exact ⟨_, _, rfl⟩
    · rcases b1 with _ | _
      · right; right; right; exact ⟨_, _, rfl⟩
      · dsimp only
        rcases h2 : waitAck tmo2 4096
            (List.foldl (fun acc byte => (xfer byte acc).2) s5 payload) with ⟨r2, s7⟩
        rcases r2 with _ | b2
        · right; right; left; exact ⟨_, _, rfl⟩
        · rcases b2 with _ | _
          · right; right; right; exact ⟨_, _, rfl⟩
          · left; rfl

lemma dataRecv_classify (intLow : Bool) (tmo : Nat → Bool) (t : Bus) :
    (dataRecv intLow tmo t).1 = .ok none ∨
    (∃ mv n, (dataRecv intLow tmo t).1 = .ok (some (mv, n))) ∨
    (∃ m st, (dataRecv intLow tmo t).1 = .error (.s2eError m ERR_TIMEOUT st)) ∨
    (∃ m st, (dataRecv intLow tmo t).1 = .error (.s2eError m ERR_NACK st)) := by
  unfold dataRecv
  by_cases hint : intLow = true
  · rw [if_neg (by simp [hint])]
    dsimp only
    rcases hr : readB1PayloadStatus tmo DATA_SCAN_MAX
        ((xfer DUMMY ((xfer DUMMY ((xfer DUMMY ((xfer CMD_B0 t).2)).2)).2)).2)
      with ⟨⟨mv, n, code, stage⟩, s5⟩
    have hcode : code = SUCCESS ∨ code = ERR_NACK ∨ code = ERR_TIMEOUT := by
      have h0 := readB1Go_code tmo DATA_SCAN_MAX 0
        ((xfer DUMMY ((xfer DUMMY ((xfer DUMMY ((xfer CMD_B0 t).2)).2)).2)).2)
      have hr2 : readB1Go tmo 0 DATA_SCAN_MAX
          ((xfer DUMMY ((xfer DUMMY ((xfer DUMMY ((xfer CMD_B0 t).2)).2)).2)).2) =
          ((mv, n, code, stage), s5) := hr
      rw [hr2] at h0
      exact h0
    rcases hcode with hc | hc | hc <;> subst hc <;> dsimp only
    · rw [if_neg (by simp)]
      right; left; exact ⟨mv, n, rfl⟩
    · rw [if_pos (by decide)]
      right; right; right; exact ⟨_, _, rfl⟩
    · rw [if_pos (by decide)]
      right; right; left; exact ⟨_, _, rfl⟩
  · rw [if_pos (by simp [hint])]
    left; rfl

/-- **C2 (amended)** — The SPI data-path wrappers do convert lower-layer
failures into outcome codes: `send_data` always returns an outcome whose
`err_code` field is `SUCCESS`, `ERR_NACK (-1)` or `ERR_TIMEOUT (-2)` — or
a dictionary with no `err_code` key at all for a non-`S2EError` exception
(the `-99 Unknown` code of the claim does not exist in the driver) — and
`recv_data` additionally may return the no-data `err_code: None`.  The AT
facade, by contrast, propagates exceptions (see the counterexample), so
the conversion guarantee holds only for the data path. -/
theorem spiDataPath_error_codes (tmo1 tmo2 tmo3 : Nat → Bool) (intLow : Bool)
    (payload : List Nat) (s t : Bus) :
    ((spiSendData tmo1 tmo2 payload s).1.errCode = some (some SUCCESS) ∨
     (spiSendData tmo1 tmo2 payload s).1.errCode = some (some ERR_NACK) ∨
     (spiSendData tmo1 tmo2 payload s).1.errCode = some (some ERR_TIMEOUT) ∨
     (spiSendData tmo1 tmo2 payload s).1.errCode = none) ∧
    ((spiRecvData intLow tmo3 t).1.errCode = some (some SUCCESS) ∨
     (spiRecvData intLow tmo3 t).1.errCode = some (some ERR_NACK) ∨
     (spiRecvData intLow tmo3 t).1.errCode = some (some ERR_TIMEOUT) ∨
     (spiRecvData intLow tmo3 t).1.errCode = some none) := by
  constructor
  · unfold spiSendData
    rcases hds : dataSend tmo1 tmo2 payload s with ⟨r, s1⟩
    have hc := dataSend_classify tmo1 tmo2 payload s
    rw [hds] at hc
    rcases hc with h | h | ⟨m, st, h⟩ | ⟨m, st, h⟩
    · replace h : r = .ok true := h
      subst h; left; rfl
    · replace h : r = .error (.valueError "DATA payload too long") := h
      subst h; right; right; right; rfl
    · replace h : r = .error (.s2eError m ERR_TIMEOUT st) := h
      subst h; right; right; left; rfl
    · replace h : r = .error (.s2eError m ERR_NACK st) := h
      subst h; right; left; rfl
  · unfold spiRecvData
    rcases hdr : dataRecv intLow tmo3 t with ⟨r, s1⟩
    have hc := dataRecv_classify intLow tmo3 t
    rw [hdr] at hc
    rcases hc with h | ⟨mv, n, h⟩ | ⟨m, st, h⟩ | ⟨m, st, h⟩
    · replace h : r = .ok none := h
      subst h; right; right; right; rfl
    · replace h : r = .ok (some (mv, n)) := h
      subst h; left; rfl
    · replace h : r = .error (.s2eError m ERR_TIMEOUT st) := h
      subst h; right; right; left; rfl
    · replace h : r = .error (.s2eError m ERR_NACK st) := h
      subst h; right; left; rfl

/-! ### GET-response prefix mismatch (C5) -/

/-- **C5 counterexample** — On the UART transport the prefix-mismatch
fallback does not exist: for raw payload `"ERROR\r\n"` and command
`"ST"`, the UART `send_cmd` returns `value = None` and `ok = False` (the
raw text is only surfaced in the `raw` field), not the whole trimmed text
as the claim requires for both transports. -/
theorem uartGetFallback_counterexample :
    uartSendCmd (some (encodeAscii "ERROR\r\n")) (some "ST") (some "") =
      .get false none (some "ERROR") := by
  decide

/-- **C5 (amended)** — On the SPI transport a GET response whose trimmed
text does not start with the echoed command code (case-insensitively)
parses to the whole trimmed text, not an error; on the UART transport the
same mismatch makes `_parse_get_value` return `None` instead. -/
theorem parseGetValue_mismatch (cmd resp : String)
    (hspi : startsWithS (upperStr cmd) (upperStr (stripChars crlfChars resp)) = false)
    (huart : ¬(2 ≤ (pyTrim resp).length ∧
      upperStr (takeS 2 (pyTrim resp)) = upperStr (pyTrim cmd))) :
    spiParseGetValue cmd resp = pyTrim (stripChars crlfChars resp) ∧
    uartParseGetValue (some cmd) (some resp) = none := by
  constructor
  · unfold spiParseGetValue
    dsimp only
    rw [if_neg (by simp [hspi])]
  · unfold uartParseGetValue
    dsimp only
    by_cases hre : resp = ""
    · rw [if_pos hre]
    · rw [if_neg hre, Option.getD_some, if_neg huart]

/-- Witness for C5 (amended): the `"ERROR\r\n"` / `"ST"` instance — SPI
yields the trimmed text `"ERROR"`, UART yields `None`. -/
theorem parseGetValue_mismatch_witness :
    spiParseGetValue "ST" "ERROR\r\n" = pyTrim (stripChars crlfChars "ERROR\r\n") ∧
    uartParseGetValue (some "ST") (some "ERROR\r\n") = none ∧
    pyTrim (stripChars crlfChars "ERROR\r\n") = "ERROR" := by
  have h := parseGetValue_mismatch "ST" "ERROR\r\n" (by decide) (by decide)
  exact ⟨h.1, h.2, by decide⟩

/-! ### The no-data outcome of `recv_data` (C8) -/

/-- Python `result.get("err_code")` on a UART `recv_data` dictionary: the
UART driver's dictionaries carry no `err_code` key at all, so the lookup
is `None` for every outcome. -/
def uartRecvErrCode (_o : UartRxOutcome) : Option Int := none

/-- **C8** — `recv_data` with no data available returns a distinct no-data
outcome on both transports: on SPI (interrupt line never low) the outcome
is the `err_code: None` dictionary with stage `"no_int"` and the bus
untouched; on UART (`readinto` returned 0 bytes) it is the
`ok: False, len: 0` dictionary.  Reading the error-code field of either
no-data outcome (Python `.get("err_code")`) gives `None`, which differs
from each of the four failure codes `-1`, `-2`, `-3`, `-99`, so an idle
link is always distinguishable from a broken one. -/
theorem recvData_noData_distinct (tmo : Nat → Bool) (t : Bus) (buf : List Nat) :
    (spiRecvData false tmo t).1 = spiNoDataOutcome ∧
    (spiRecvData false tmo t).2 = t ∧
    spiNoDataOutcome.errCode.join = none ∧
    spiNoDataOutcome.errCode.join ≠ some ERR_NACK ∧
    spiNoDataOutcome.errCode.join ≠ some ERR_TIMEOUT ∧
    spiNoDataOutcome.errCode.join ≠ some ERR_INVALID_HEADER ∧
    spiNoDataOutcome.errCode.join ≠ some (-99) ∧
    uartRecvData 0 buf = { ok := false, mv := none, len := 0 } ∧
    uartRecvErrCode (uartRecvData 0 buf) = none ∧
    uartRecvErrCode (uartRecvData 0 buf) ≠ some ERR_NACK ∧
    uartRecvErrCode (uartRecvData 0 buf) ≠ some ERR_TIMEOUT ∧
    uartRecvErrCode (uartRecvData 0 buf) ≠ some ERR_INVALID_HEADER ∧
    uartRecvErrCode (uartRecvData 0 buf) ≠ some (-99) := by
  exact ⟨rfl, rfl, rfl, by decide, by decide, by decide, by decide, rfl, rfl,
    fun h => Option.noConfusion h, fun h => Option.noConfusion h,
    fun h => Option.noConfusion h, fun h => Option.noConfusion h⟩

/-! ### The GET-response value algorithm (C7) -/

lemma toNat_ofNat_small (a : Nat) (h : a < 128) : (Char.ofNat a).toNat = a := by
  unfold Char.ofNat
  rw [dif_pos (Or.inl (by omega))]
  unfold Char.ofNatAux
  show (UInt32.ofNat' a _).toNat = a
  simp [UInt32.ofNat', UInt32.toNat, BitVec.toNat_ofNatLt]

lemma takeWhile_congr_mem {α : Type} (p q : α → Bool) : ∀ (l : List α),
    (∀ x ∈ l, p x = q x) → l.takeWhile p = l.takeWhile q := by
  intro l
  induction l with
  | nil => intro _; rfl
  | cons a as ih =>
    intro h
    rw [List.takeWhile_cons, List.takeWhile_cons, h a (by simp)]
    by_cases hq : q a = true
    · rw [if_pos hq, if_pos hq, ih (fun x hx => h x (by simp [hx]))]
    · rw [if_neg hq, if_neg hq]

lemma takeWhile_ofNat (l : List Nat) (hl : ∀ b ∈ l, b < 128) :
    (l.map Char.ofNat).takeWhile (fun c => c ≠ Char.ofNat 0) =
    (l.takeWhile (fun b => b ≠ 0)).map Char.ofNat := by
  rw [List.takeWhile_map]
  congr 1
  apply takeWhile_congr_mem
  intro x hx
  have hx128 := hl x hx
  show decide (Char.ofNat x ≠ Char.ofNat 0) = decide (x ≠ 0)
  rw [decide_eq_decide]
  constructor
  · intro hne h0
    exact hne (by rw [h0])
  · intro hne hc
    apply hne
    have h2 := congrArg Char.toNat hc
    rwa [toNat_ofNat_small x hx128, toNat_ofNat_small 0 (by omega)] at h2

lemma filter_takeWhile_nul (l : List Nat) :
    (l.takeWhile (fun b => b ≠ 0)).filter (fun b => b < 128) =
    (l.filter (fun b => b < 128)).takeWhile (fun b => b ≠ 0) := by
  induction l with
  | nil => rfl
  | cons a as ih =>
    by_cases h0 : a = 0
    · subst h0
      have htw : List.takeWhile (fun b => b ≠ 0) ((0 : Nat) :: as) = [] := by
        rw [List.takeWhile_cons, if_neg (by decide)]
      have hf : List.filter (fun b => b < 128) ((0 : Nat) :: as) =
          0 :: List.filter (fun b => b < 128) as := by
        rw [List.filter_cons, if_pos (by decide)]
      rw [htw, hf, List.takeWhile_cons, if_neg (by decide)]
      rfl
    · have htw : List.takeWhile (fun b => b ≠ 0) (a :: as) =
          a :: List.takeWhile (fun b => b ≠ 0) as := by
        rw [List.takeWhile_cons, if_pos (by simp [h0])]
      by_cases h128 : a < 128
      · have hf : List.filter (fun b => b < 128) (a :: as) =
            a :: List.filter (fun b => b < 128) as := by
          rw [List.filter_cons, if_pos (by simp [h128])]
        have hf2 : List.filter (fun b => b < 128)
            (a :: List.takeWhile (fun b => b ≠ 0) as) =
            a :: List.filter (fun b => b < 128) (List.takeWhile (fun b => b ≠ 0) as) := by
          rw [List.filter_cons, if_pos (by simp [h128])]
        have htw2 : List.takeWhile (fun b => b ≠ 0)
            (a :: List.filter (fun b => b < 128) as) =
            a :: List.takeWhile (fun b => b ≠ 0) (List.filter (fun b => b < 128) as) := by
          rw [List.takeWhile_cons, if_pos (by simp [h0])]
        rw [htw, hf, hf2, htw2, ih]
      · have hf : List.filter (fun b => b < 128) (a :: as) =
            List.filter (fun b => b < 128) as := by
          rw [List.filter_cons, if_neg (by simp [h128])]
        have hf2 : List.filter (fun b => b < 128)
            (a :: List.takeWhile (fun b => b ≠ 0) as) =
            List.filter (fun b => b < 128) (List.takeWhile (fun b => b ≠ 0) as) := by
          rw [List.filter_cons, if_neg (by simp [h128])]
        rw [htw, hf, hf2, ih]

lemma startsWith_take (cu l : List Char) : (cu.isPrefixOf l = true) ↔ l.take cu.length = cu := by
  rw [List.isPrefixOf_iff_prefix, List.prefix_iff_eq_take]
  exact eq_comm

/-- **C7 counterexample** — The claim's algorithm ("strip trailing CR/LF")
disagrees with the driver on a payload with leading CR/LF: for raw payload
`"\r\nVR1.0.0\r\n"` and command `"VR"` the driver yields `"1.0.0"` (Python
`strip("\r\n")` removes the leading CR/LF too, so the echoed code is found
at the front) while the claimed algorithm yields `"VR1.0.0"`. -/
theorem spiRespValue_claim_counterexample :
    spiRespValue "VR" (encodeAscii "\r\nVR1.0.0\r\n") ≠
      claimC7Value "VR" (encodeAscii "\r\nVR1.0.0\r\n") := by
  decide

/-- **C7 (amended)** — For every raw GET response payload, the value the
SPI `send_cmd` computes equals the spec algorithm with "strip trailing
CR/LF" amended to "strip leading and trailing CR/LF": decode as ASCII
(dropping non-ASCII bytes), truncate at the first NUL, strip CR/LF from
both ends, strip the echoed command code case-insensitively when present,
and trim the remainder; in particular `"VR1.0.0\r\n"` for `"VR"` yields
`"1.0.0"`. -/
theorem spiRespValue_algorithm :
    (∀ (cmd : String) (payload : List Nat),
      spiRespValue cmd payload = claimC7AmendedValue cmd payload) ∧
    spiRespValue "VR" (encodeAscii "VR1.0.0\r\n") = "1.0.0" := by
  constructor
  · intro cmd payload
    have hmem : ∀ b ∈ payload.filter (fun b => b < 128), b < 128 := by
      intro b hb
      simpa using (List.mem_filter.mp hb).2
    have htext : (decodeAsciiIgnore payload).takeWhile (fun c => c ≠ Char.ofNat 0) =
        decodeAsciiIgnore (payload.takeWhile (fun b => b ≠ 0)) := by
      unfold decodeAsciiIgnore
      rw [takeWhile_ofNat _ hmem, ← filter_takeWhile_nul]
    have hcode : spiRespValue cmd payload =
        pyTrim (if ((cmd.data.map Char.toUpper).isPrefixOf
            ((stripCharsList crlfChars
              (decodeAsciiIgnore (payload.takeWhile (fun b => b ≠ 0)))).map Char.toUpper)) = true
          then String.mk ((stripCharsList crlfChars
              (decodeAsciiIgnore (payload.takeWhile (fun b => b ≠ 0)))).drop
                (cmd.data.map Char.toUpper).length)
          else String.mk (stripCharsList crlfChars
              (decodeAsciiIgnore (payload.takeWhile (fun b => b ≠ 0))))) := rfl
    have hclaim : claimC7AmendedValue cmd payload =
        String.mk (pyTrimList (if (((stripCharsList crlfChars
            ((decodeAsciiIgnore payload).takeWhile (fun c => c ≠ Char.ofNat 0))).take
              (cmd.data.map Char.toUpper).length).map Char.toUpper = cmd.data.map Char.toUpper)
          then (stripCharsList crlfChars
            ((decodeAsciiIgnore payload).takeWhile (fun c => c ≠ Char.ofNat 0))).drop
              (cmd.data.map Char.toUpper).length
          else stripCharsList crlfChars
            ((decodeAsciiIgnore payload).takeWhile (fun c => c ≠ Char.ofNat 0)))) := rfl
    rw [hcode, hclaim, htext]
    have hdata : ∀ (c : Prop) [Decidable c] (x y : List Char),
        (if c then String.mk x else String.mk y).data = if c then x else y := by
      intro c hc x y
      by_cases h : c
      · rw [if_pos h, if_pos h]
      · rw [if_neg h, if_neg h]
    show String.mk (pyTrimList (if _ = true then String.mk _ else String.mk _).data) = _
    rw [hdata]
    refine congrArg String.mk (congrArg pyTrimList (if_congr ?_ rfl rfl))
    rw [startsWith_take, List.map_take]
  · decide

/-! ### The SET/GET dispatch of `send_cmd` (C1) -/

lemma foldl_xfer_rx : ∀ (l : List Nat) (s : Bus),
    (l.foldl (fun acc byte => (xfer byte acc).2) s).rx = s.rx := by
  intro l
  induction l with
  | nil => intro s; rfl
  | cons a as ih =>
    intro s
    rw [List.foldl_cons, ih]
    rfl

lemma waitAck_allAck (tmo : Nat → Bool) (s : Bus) (h0 : tmo 0 = false)
    (hrx : ∀ k, s.rx k = ACK) :
    ∃ s2, waitAck tmo 4096 s = (some true, s2) ∧ s2.rx = s.rx := by
  unfold waitAck
  rw [show (4096 : Nat) = 4095 + 1 from rfl, waitAckGo_succ]
  rw [if_neg (by simp [h0]), if_pos (hrx s.cnt)]
  exact ⟨_, rfl, rfl⟩

lemma atSetEncoded_ge_two (cmd : String) : 2 ≤ (atSetEncoded cmd).length := by
  simp only [atSetEncoded]
  split
  · next h =>
    have h2 := List.IsSuffix.length_le (List.isSuffixOf_iff_suffix.mp h)
    simpa using h2
  · have hl : ([13, 10] : List Nat).length = 2 := rfl
    rw [List.length_append, hl]
    omega

lemma atSet_allAck (tmo1 tmo2 : Nat → Bool) (cmdline : String) (s : Bus)
    (h1 : tmo1 0 = false) (h2 : tmo2 0 = false)
    (hrx : ∀ k, s.rx k = ACK)
    (hlen : (atSetEncoded cmdline).length - 2 ≤ 0xFFFF) :
    ∃ s7, atSet tmo1 tmo2 cmdline s = (.ok true, s7) := by
  unfold atSet
  rw [if_neg (by have := atSetEncoded_ge_two cmdline; omega), if_neg (by omega)]
  dsimp only
  obtain ⟨sA, hA, hArx⟩ := waitAck_allAck tmo1
    ((xfer ((((atSetEncoded cmdline).length - 2) >>> 8) &&& 0xFF)
      ((xfer (((atSetEncoded cmdline).length - 2) &&& 0xFF)
        ((xfer ((atSetEncoded cmdline).getD 1 0)
          ((xfer ((atSetEncoded cmdline).getD 0 0) s).2)).2)).2)).2)
    h1 (by intro k; simp only [xfer_rx]; exact hrx k)
  rw [hA]
  dsimp only
  simp only [xfer_rx] at hArx
  obtain ⟨sB, hB, _⟩ := waitAck_allAck tmo2
    (List.foldl (fun acc byte => (xfer byte acc).2) sA ((atSetEncoded cmdline).drop 2))
    h2 (by intro k; rw [foldl_xfer_rx, hArx]; exact hrx k)
  rw [hB]
  exact ⟨sB, rfl⟩

/-- **C1 counterexample** — The dispatch rule of the claim fails: on the
UART transport `send_cmd("SV", "")` performs a GET (there is no
no-parameter SET command set in the UART driver at all), even though
`"SV"` is in the SPI driver's `_NO_PARAM_SET_CMDS`; moreover the SPI
membership test is case-sensitive: the stripped code `"sv"` is not in the
tuple, contradicting "whatever case the code is written in". -/
theorem uartSendCmd_sv_counterexample :
    uartSendCmd none (some "SV") (some "") = .get false none none ∧
    "SV" ∈ noParamSetCmds ∧
    pyTrim "sv" = "sv" ∧
    "sv" ∉ noParamSetCmds := by
  exact ⟨by decide, by decide, by decide, by decide⟩

/-- **C1 (amended)** — For a stripped, non-empty, non-`HELP`/`?` command
code of bounded length, with a cooperative (always-ACK) peer: the SPI
`send_cmd` performs a SET (returns a `set`-shaped outcome) exactly when
the parameter is non-empty or the stripped code is **exactly** one of
`SV`, `RT`, `FR`, `EX` (case-sensitively); the UART `send_cmd` performs a
SET exactly when the parameter is non-empty, with no no-parameter SET
codes at all. -/
theorem sendCmd_dispatch (atCmd atParam : String)
    (hne : pyTrim atCmd ≠ "")
    (hhelp : upperStr (pyTrim atCmd) ≠ "HELP")
    (hq : upperStr (pyTrim atCmd) ≠ "?")
    (hlen : (pyTrim atCmd).length + atParam.length ≤ 0xFFFF) :
    ((∃ b s2, spiSendCmd tmoNever tmoNever true tmoNever (some atCmd) (some atParam) ackBus =
        (.ok (.set b), s2)) ↔
      (atParam ≠ "" ∨ pyTrim atCmd ∈ noParamSetCmds)) ∧
    ((∃ ok raw, uartSendCmd none (some atCmd) (some atParam) = .set ok raw) ↔
      atParam ≠ "") := by
  constructor
  · unfold spiSendCmd
    simp only [Option.getD_some]
    rw [if_neg hne]
    rw [if_neg (by rintro (h | h); exacts [hhelp h, hq h])]
    by_cases hdisp : atParam ≠ "" ∨ pyTrim atCmd ∈ noParamSetCmds
    · rw [if_pos hdisp]
      have hlen2 : (atSetEncoded (pyTrim atCmd ++ atParam)).length - 2 ≤ 0xFFFF := by
        rcases atSetEncoded_length (pyTrim atCmd ++ atParam) with h | h <;>
          rw [h, String.length_append] <;> omega
      obtain ⟨s7, h7⟩ := atSet_allAck tmoNever tmoNever (pyTrim atCmd ++ atParam) ackBus
        rfl rfl (fun k => rfl) hlen2
      rw [h7]
      exact ⟨fun _ => hdisp, fun _ => ⟨true, s7, rfl⟩⟩
    · rw [if_neg hdisp]
      apply iff_of_false ?_ hdisp
      rintro ⟨b, s2, heq⟩
      rcases hg : atGet true tmoNever (pyTrim atCmd) ackBus with ⟨res, s1⟩
      rw [hg] at heq
      rcases res with e | ⟨mv, n⟩
      · simp at heq
      · rcases mv with _ | p
        · simp at heq
        · dsimp only at heq
          split at heq <;> simp at heq
  · unfold uartSendCmd
    simp only [Option.getD_some]
    rw [if_neg (by rintro (h | h); exacts [hhelp h, hq h])]
    by_cases hp : atParam ≠ ""
    · rw [if_pos hp]
      exact ⟨fun _ => hp, fun _ => ⟨true, none, rfl⟩⟩
    · rw [if_neg hp]
      apply iff_of_false ?_ hp
      rintro ⟨ok, raw, heq⟩
      exact UartCmdResult.noConfusion heq

/-- Witness for C1 (amended): `send_cmd("SV", "")` dispatches to SET on the
SPI driver but to GET on the UART driver. -/
theorem sendCmd_dispatch_witness :
    (∃ b s2, spiSendCmd tmoNever tmoNever true tmoNever (some "SV") (some "") ackBus =
      (.ok (.set b), s2)) ∧
    ¬(∃ ok raw, uartSendCmd none (some "SV") (some "") = .set ok raw) := by
  have h := sendCmd_dispatch "SV" "" (by decide) (by decide) (by decide) (by decide)
  refine ⟨h.1.mpr (Or.inr (by decide)), fun hex => ?_⟩
  have hfalse := h.2.mp hex
  simp at hfalse

end S2E
